import Mathlib

/-
Shallow embedding of the booking/scheduling subsystem of the
Donhafiz/starmediatech repository: the consultation routes
(create / reschedule / status update / feedback), the consultant
rating aggregation helper, the simpler consultation-controller
family (rateConsultation), and course enrollment.

Times are integers (epoch milliseconds, as in the JavaScript source);
identifiers are naturals; money amounts are integers; the aggregate
rating uses rationals.
-/

namespace StarMedia

/-- Status values of the rich consultation route family
(file of the consultation routes: validTransitions keys). -/
inductive CStatus where
  | scheduled
  | confirmed
  | rescheduled
  | cancelled
  | completed
  | noShow
deriving DecidableEq, Repr

/-- String rendering of a status, as the route code interpolates it
into messages (the JSON enum uses "no-show"). -/
def statusToString : CStatus → String
  | .scheduled => "scheduled"
  | .confirmed => "confirmed"
  | .rescheduled => "rescheduled"
  | .cancelled => "cancelled"
  | .completed => "completed"
  | .noShow => "no-show"

/-- The status-update endpoint validator:
body status isIn of confirmed, cancelled, completed, no-show.
Any other requested string fails validation. -/
def parseTargetStatus : String → Option CStatus
  | "confirmed" => some .confirmed
  | "cancelled" => some .cancelled
  | "completed" => some .completed
  | "no-show" => some .noShow
  | _ => none

/-- One entry of the reschedule history pushed by the reschedule route. -/
structure RescheduleEntry where
  previousDate : Int
  newDate : Int
  reason : String
  rescheduledBy : Nat
  rescheduledAt : Int
deriving DecidableEq, Repr

/-- Modelled from the spec: the rich Consultation document (data-model
section of the spec; its Mongoose schema file is absent from the
snapshot, only the route code that reads and writes these fields is
present). Fields: client user, consultant, service, scheduledDate,
duration (minutes), timeSlot label, derived endTime, status,
price snapshot amount, append-only rescheduleHistory, cancellation
fields, completion timestamp, and the once-only feedback fields. -/
structure Consultation where
  id : Nat
  user : Nat
  consultant : Nat
  service : Nat
  scheduledDate : Int
  endTime : Int
  duration : Int
  timeSlot : String
  status : CStatus
  amount : Int
  rescheduleHistory : List RescheduleEntry
  cancellationReason : Option String
  cancelledBy : Option Nat
  cancelledAt : Option Int
  completedAt : Option Int
  rating : Option Int
  feedback : Option String
  feedbackProvided : Bool
  feedbackDate : Option Int
  updatedAt : Int
deriving DecidableEq, Repr

/-- Service document: the create-booking route reads id, consultant
owner, price and the isActive soft-delete flag. -/
structure Service where
  id : Nat
  consultant : Nat
  price : Int
  isActive : Bool
deriving DecidableEq, Repr

/-- Consultant approval state (Consultant schema enum). -/
inductive Approval where
  | pending
  | approved
  | rejected
deriving DecidableEq, Repr

/-- Consultant profile document (Consultant schema): isActive,
approvalStatus, and the denormalized aggregate rating fields. -/
structure Consultant where
  id : Nat
  isActive : Bool
  approvalStatus : Approval
  rating : ℚ
  totalRatings : Nat
deriving DecidableEq, Repr

/-- The authenticated requester (req.user of the route layer). -/
structure Actor where
  userId : Nat
  role : String
deriving DecidableEq, Repr

/-- JSON response envelope: success flag, HTTP status code, message. -/
structure ApiResponse where
  success : Bool
  code : Nat
  message : String
deriving DecidableEq, Repr

/-- findById over the consultation collection. -/
def findConsultation (cs : List Consultation) (id : Nat) : Option Consultation :=
  cs.find? (fun c => c.id == id)

/-- save of a fetched-and-mutated document: replace the record
carrying this id. -/
def replaceConsultation (cs : List Consultation) (c' : Consultation) :
    List Consultation :=
  cs.map (fun c => if c.id == c'.id then c' else c)

/-- The create-booking conflict query: another consultation of the same
consultant with the exact same scheduledDate and timeSlot whose status
is scheduled or confirmed. -/
def hasCreateConflict (cs : List Consultation) (consultant : Nat)
    (scheduledDate : Int) (timeSlot : String) : Bool :=
  cs.any (fun c =>
    c.consultant == consultant &&
    c.scheduledDate == scheduledDate &&
    c.timeSlot == timeSlot &&
    (c.status == .scheduled || c.status == .confirmed))

/-- Request body of the create-booking route, plus the id the store
will assign to the new document. -/
structure CreateReq where
  newId : Nat
  service : Nat
  consultant : Nat
  scheduledDate : Int
  duration : Int
  timeSlot : String
deriving DecidableEq, Repr

/-- Result of an operation on the consultation collection. -/
structure ConsultResult where
  consultations : List Consultation
  response : ApiResponse
deriving DecidableEq, Repr

/-- Find an active service by id (findOne with isActive true). -/
def findActiveService (services : List Service) (id : Nat) : Option Service :=
  services.find? (fun s => s.id == id && s.isActive)

/-- Find an active consultant by id (findOne with isActive true). -/
def findActiveConsultant (ks : List Consultant) (id : Nat) : Option Consultant :=
  ks.find? (fun k => k.id == id && k.isActive)

/-- POST consultations: create a booking. Mirrors the route: field
validation, active service lookup, active consultant lookup, ownership
of the service by the consultant, future-date check, exact-slot
conflict check, then persist a new document with status scheduled and
amount snapshotted from the service price. -/
def createConsultation (services : List Service) (ks : List Consultant)
    (cs : List Consultation) (now : Int) (actor : Actor) (req : CreateReq) :
    ConsultResult :=
  if ¬ (15 ≤ req.duration ∧ req.duration ≤ 480 ∧ req.timeSlot ≠ "") then
    { consultations := cs, response := ⟨false, 400, "Validation failed"⟩ }
  else
    match findActiveService services req.service with
    | none =>
        { consultations := cs
          response := ⟨false, 404, "Service not found or inactive"⟩ }
    | some serviceDoc =>
      match findActiveConsultant ks req.consultant with
      | none =>
          { consultations := cs
            response := ⟨false, 404, "Consultant not found or inactive"⟩ }
      | some consultantDoc =>
        if consultantDoc.id ≠ serviceDoc.consultant then
          { consultations := cs
            response := ⟨false, 400, "Consultant does not offer this service"⟩ }
        else if req.scheduledDate ≤ now then
          { consultations := cs
            response := ⟨false, 400, "Scheduled date must be in the future"⟩ }
        else if hasCreateConflict cs req.consultant req.scheduledDate req.timeSlot then
          { consultations := cs
            response := ⟨false, 400,
              "Consultant is not available at this time. Please choose another time slot."⟩ }
        else
          let newC : Consultation :=
            { id := req.newId
              user := actor.userId
              consultant := req.consultant
              service := req.service
              scheduledDate := req.scheduledDate
              endTime := req.scheduledDate + req.duration * 60000
              duration := req.duration
              timeSlot := req.timeSlot
              status := .scheduled
              amount := serviceDoc.price
              rescheduleHistory := []
              cancellationReason := none
              cancelledBy := none
              cancelledAt := none
              completedAt := none
              rating := none
              feedback := none
              feedbackProvided := false
              feedbackDate := none
              updatedAt := now }
          { consultations := cs ++ [newC]
            response := ⟨true, 201, "Consultation booked successfully"⟩ }

/-- Request body of the reschedule route. -/
structure RescheduleReq where
  scheduledDate : Int
  timeSlot : String
  reason : Option String
deriving DecidableEq, Repr

/-- The reschedule conflict query: same consultant, exact same new
scheduledDate and timeSlot, status scheduled or confirmed, excluding
the record being rescheduled itself. -/
def hasRescheduleConflict (cs : List Consultation) (selfId consultant : Nat)
    (scheduledDate : Int) (timeSlot : String) : Bool :=
  cs.any (fun c =>
    c.consultant == consultant &&
    c.scheduledDate == scheduledDate &&
    c.timeSlot == timeSlot &&
    (c.status == .scheduled || c.status == .confirmed) &&
    c.id != selfId)

/-- PUT consultations id reschedule. Mirrors the route statement by
statement: validation, findById, ownership or admin, status must be
scheduled or confirmed, future date, conflict excluding self; then the
document is mutated field by field in source order - scheduledDate is
overwritten first, and the history entry then reads the already
overwritten scheduledDate as its previousDate, exactly as the
JavaScript does. -/
def rescheduleConsultation (cs : List Consultation) (id : Nat)
    (actor : Actor) (now : Int) (req : RescheduleReq) : ConsultResult :=
  if req.timeSlot = "" then
    { consultations := cs, response := ⟨false, 400, "Validation failed"⟩ }
  else
    match findConsultation cs id with
    | none =>
        { consultations := cs
          response := ⟨false, 404, "Consultation not found"⟩ }
    | some consultation =>
      if ¬ (consultation.user = actor.userId ∨ actor.role = "admin") then
        { consultations := cs
          response := ⟨false, 403, "Not authorized to reschedule this consultation"⟩ }
      else if ¬ (consultation.status = .scheduled ∨ consultation.status = .confirmed) then
        { consultations := cs
          response := ⟨false, 400,
            "Only scheduled or confirmed consultations can be rescheduled"⟩ }
      else if req.scheduledDate ≤ now then
        { consultations := cs
          response := ⟨false, 400, "New scheduled date must be in the future"⟩ }
      else if hasRescheduleConflict cs consultation.id consultation.consultant
          req.scheduledDate req.timeSlot then
        { consultations := cs
          response := ⟨false, 400,
            "Consultant is not available at this time. Please choose another time slot."⟩ }
      else
        let c1 := { consultation with
          scheduledDate := req.scheduledDate
          timeSlot := req.timeSlot
          endTime := req.scheduledDate + consultation.duration * 60000
          status := CStatus.rescheduled }
        let entry : RescheduleEntry :=
          { previousDate := c1.scheduledDate
            newDate := req.scheduledDate
            reason := req.reason.getD "No reason provided"
            rescheduledBy := actor.userId
            rescheduledAt := now }
        let c2 := { c1 with
          rescheduleHistory := c1.rescheduleHistory ++ [entry]
          updatedAt := now }
        { consultations := replaceConsultation cs c2
          response := ⟨true, 200, "Consultation rescheduled successfully"⟩ }

/-- The status transition table of the status-update route. -/
def validTransitions : CStatus → List CStatus
  | .scheduled => [.confirmed, .cancelled]
  | .confirmed => [.completed, .cancelled, .noShow]
  | .rescheduled => [.confirmed, .cancelled]
  | .cancelled => []
  | .completed => []
  | .noShow => []

/-- The message of the illegal-transition rejection. -/
def transitionErrorMsg (fromSt toSt : CStatus) : String :=
  "Cannot change status from " ++ statusToString fromSt ++ " to " ++ statusToString toSt

/-- The authorization chain of the status-update route: consultant for
confirmed, completed and no-show; client, consultant or admin for
cancelled; admin otherwise always authorized. -/
def statusUpdateAuthorized (c : Consultation) (actor : Actor)
    (target : CStatus) : Bool :=
  (target == .confirmed && c.consultant == actor.userId) ||
  (target == .cancelled &&
    (c.user == actor.userId || c.consultant == actor.userId ||
     actor.role == "admin")) ||
  (target == .completed && c.consultant == actor.userId) ||
  (target == .noShow && c.consultant == actor.userId) ||
  actor.role == "admin"

/-- The document mutation of an accepted status update: set the new
status, then - only when the target is cancelled AND a truthy (present
and nonempty) cancellationReason accompanies the request - record the
reason, the acting user and the cancellation timestamp, and finally
record the completion timestamp when the target is completed. -/
def applyStatusUpdate (c : Consultation) (actor : Actor) (now : Int)
    (target : CStatus) (cancellationReason : Option String) : Consultation :=
  let c1 := { c with status := target, updatedAt := now }
  let c2 :=
    if target = CStatus.cancelled ∧ cancellationReason.getD "" ≠ "" then
      { c1 with
        cancellationReason := cancellationReason
        cancelledBy := some actor.userId
        cancelledAt := some now }
    else c1
  if target = CStatus.completed then { c2 with completedAt := some now } else c2

/-- PUT consultations id status. Mirrors the route: validator on the
requested status string, findById, the authorization chain, the
transition table, then the mutation of applyStatusUpdate. -/
def updateConsultationStatus (cs : List Consultation) (id : Nat)
    (actor : Actor) (now : Int) (statusStr : String)
    (cancellationReason : Option String) : ConsultResult :=
  match parseTargetStatus statusStr with
  | none =>
      { consultations := cs, response := ⟨false, 400, "Validation failed"⟩ }
  | some target =>
    match findConsultation cs id with
    | none =>
        { consultations := cs
          response := ⟨false, 404, "Consultation not found"⟩ }
    | some consultation =>
      if ¬ statusUpdateAuthorized consultation actor target then
        { consultations := cs
          response := ⟨false, 403, "Not authorized to update consultation status"⟩ }
      else if ¬ target ∈ validTransitions consultation.status then
        { consultations := cs
          response := ⟨false, 400, transitionErrorMsg consultation.status target⟩ }
      else
        { consultations := replaceConsultation cs
            (applyStatusUpdate consultation actor now target cancellationReason)
          response := ⟨true, 200,
            "Consultation " ++ statusToString target ++ " successfully"⟩ }

/-- The ratings the aggregation pipeline of updateConsultantRating
matches: consultations of this consultant whose rating is present and
greater than zero, in store order. -/
def consultantRatings (cs : List Consultation) (cid : Nat) : List Int :=
  (cs.filter (fun c => c.consultant == cid && 0 < c.rating.getD 0)).map
    (fun c => c.rating.getD 0)

/-- Rounding to one decimal place (toFixed 1 of the aggregate average). -/
def round1 (q : ℚ) : ℚ :=
  (round (q * 10) : ℤ) / 10

/-- updateConsultantRating: recompute the consultant aggregate from all
matching ratings - average rounded to one decimal and total count -
and write it back; when no rating matches, no write happens. -/
def updateConsultantRating (cs : List Consultation) (ks : List Consultant)
    (cid : Nat) : List Consultant :=
  let rs := consultantRatings cs cid
  if rs.length = 0 then ks
  else
    ks.map (fun k =>
      if k.id == cid then
        { k with
          rating := round1 ((rs.sum : ℚ) / (rs.length : ℚ))
          totalRatings := rs.length }
      else k)

/-- Result of the feedback route: consultation store, consultant store
and response. -/
structure FeedbackResult where
  consultations : List Consultation
  consultants : List Consultant
  response : ApiResponse
deriving DecidableEq, Repr

/-- POST consultations id feedback. Mirrors the route: rating validator
1 to 5, findById, requester must be the booking client, status must be
completed, feedback not yet provided; then the feedback fields are
stored, feedbackProvided is set, and the consultant aggregate is
recomputed by updateConsultantRating. -/
def addFeedback (cs : List Consultation) (ks : List Consultant) (id : Nat)
    (actor : Actor) (now : Int) (rating : Int) (feedback : Option String) :
    FeedbackResult :=
  if ¬ (1 ≤ rating ∧ rating ≤ 5) then
    { consultations := cs, consultants := ks
      response := ⟨false, 400, "Validation failed"⟩ }
  else
    match findConsultation cs id with
    | none =>
        { consultations := cs, consultants := ks
          response := ⟨false, 404, "Consultation not found"⟩ }
    | some consultation =>
      if consultation.user ≠ actor.userId then
        { consultations := cs, consultants := ks
          response := ⟨false, 403,
            "Not authorized to provide feedback for this consultation"⟩ }
      else if consultation.status ≠ .completed then
        { consultations := cs, consultants := ks
          response := ⟨false, 400,
            "Feedback can only be provided for completed consultations"⟩ }
      else if consultation.feedbackProvided then
        { consultations := cs, consultants := ks
          response := ⟨false, 400, "Feedback already provided for this consultation"⟩ }
      else
        let c1 := { consultation with
          rating := some rating
          feedback := feedback
          feedbackProvided := true
          feedbackDate := some now
          updatedAt := now }
        let cs1 := replaceConsultation cs c1
        { consultations := cs1
          consultants := updateConsultantRating cs1 ks consultation.consultant
          response := ⟨true, 200, "Feedback submitted successfully"⟩ }

/-- Status values of the simpler consultation model family
(controller file and its Mongoose schema: enum pending, confirmed,
completed, cancelled, rescheduled). -/
inductive SStatus where
  | pending
  | confirmed
  | completed
  | cancelled
  | rescheduled
deriving DecidableEq, Repr

/-- Consultation document of the simpler controller family: client,
consultant (a User), status, and the client rating fields written by
rateConsultation. -/
structure SConsultation where
  id : Nat
  client : Nat
  consultant : Nat
  status : SStatus
  clientRating : Option Int
  clientReview : Option String
  ratedAt : Option Int
deriving DecidableEq, Repr

/-- User document as touched by the simpler family aggregation: the
denormalized rating written back by rateConsultation. -/
structure SUser where
  id : Nat
  rating : Option ℚ
deriving DecidableEq, Repr

/-- Result of rateConsultation: consultation store, user store, response. -/
structure RateResult where
  consultations : List SConsultation
  users : List SUser
  response : ApiResponse
deriving DecidableEq, Repr

/-- The clientRating values the rateConsultation aggregation matches:
consultations of this consultant where clientRating exists. -/
def sConsultantRatings (cs : List SConsultation) (cid : Nat) : List Int :=
  (cs.filter (fun c => c.consultant == cid && c.clientRating.isSome)).map
    (fun c => c.clientRating.getD 0)

/-- rateConsultation of the simpler controller family. Mirrors the
controller: findById, requester must be the client, status must be
completed; then clientRating, clientReview and ratedAt are written
(there is no once-only guard - an existing rating is overwritten), and
the consultant user record receives the exact average of all existing
clientRating values (no rounding, no count written). -/
def rateConsultation (cs : List SConsultation) (users : List SUser)
    (id : Nat) (actor : Actor) (now : Int) (rating : Int)
    (review : Option String) : RateResult :=
  match cs.find? (fun c => c.id == id) with
  | none =>
      { consultations := cs, users := users
        response := ⟨false, 404, "Consultation not found"⟩ }
  | some consultation =>
    if consultation.client ≠ actor.userId then
      { consultations := cs, users := users
        response := ⟨false, 403, "Not authorized to rate this consultation"⟩ }
    else if consultation.status ≠ .completed then
      { consultations := cs, users := users
        response := ⟨false, 400, "Can only rate completed consultations"⟩ }
    else
      let c1 := { consultation with
        clientRating := some rating
        clientReview := review
        ratedAt := some now }
      let cs1 := cs.map (fun c => if c.id == c1.id then c1 else c)
      let rs := sConsultantRatings cs1 consultation.consultant
      let users1 :=
        if rs.length = 0 then users
        else
          users.map (fun u =>
            if u.id == consultation.consultant then
              { u with rating := some ((rs.sum : ℚ) / (rs.length : ℚ)) }
            else u)
      { consultations := cs1, users := users1
        response := ⟨true, 200, "Consultation rated successfully"⟩ }

/-- Course document as read by the enroll route: price, the publication
flags and the denormalized enrollment counter. -/
structure Course where
  id : Nat
  price : Int
  isPublished : Bool
  statusPublished : Bool
  enrollmentCount : Nat
deriving DecidableEq, Repr

/-- Enrollment status enum of the Enrollment schema. -/
inductive EStatus where
  | active
  | completed
  | cancelled
  | paused
  | expired
deriving DecidableEq, Repr

/-- Enrollment document as written by the enroll route. -/
structure Enrollment where
  user : Nat
  course : Nat
  amountPaid : Int
  status : EStatus
deriving DecidableEq, Repr

/-- Result of the enroll route. -/
structure EnrollResult where
  courses : List Course
  enrollments : List Enrollment
  response : ApiResponse
deriving DecidableEq, Repr

/-- The duplicate-enrollment query of the enroll route: an enrollment
of this user in this course with status active or completed. -/
def hasActiveEnrollment (es : List Enrollment) (uid cid : Nat) : Bool :=
  es.any (fun e =>
    e.user == uid && e.course == cid &&
    (e.status == .active || e.status == .completed))

/-- POST courses id enroll. Mirrors the route: findById on the course,
publication check, duplicate-enrollment rejection; on success a new
enrollment is created with amountPaid snapshotted from the course
price and status active, and the course enrollmentCount is
incremented by one. -/
def enrollInCourse (courses : List Course) (es : List Enrollment)
    (uid cid : Nat) : EnrollResult :=
  match courses.find? (fun c => c.id == cid) with
  | none =>
      { courses := courses, enrollments := es
        response := ⟨false, 404, "Course not found"⟩ }
  | some course =>
    if ¬ (course.isPublished ∧ course.statusPublished) then
      { courses := courses, enrollments := es
        response := ⟨false, 400, "Course is not available for enrollment"⟩ }
    else if hasActiveEnrollment es uid course.id then
      { courses := courses, enrollments := es
        response := ⟨false, 400, "You are already enrolled in this course"⟩ }
    else
      let newE : Enrollment :=
        { user := uid, course := course.id
          amountPaid := course.price, status := .active }
      let course1 := { course with enrollmentCount := course.enrollmentCount + 1 }
      { courses := courses.map (fun c => if c.id == course.id then course1 else c)
        enrollments := es ++ [newE]
        response := ⟨true, 201, "Successfully enrolled in course"⟩ }

/-- Number of active-or-completed enrollments of a (user, course) pair;
the uniqueness invariant of the Enrollment schema compound index says
this is at most one. -/
def activeEnrollmentCount (es : List Enrollment) (uid cid : Nat) : Nat :=
  (es.filter (fun e =>
    e.user == uid && e.course == cid &&
    (e.status == .active || e.status == .completed))).length

/-- Modelled from the spec: overlap of two half-open time intervals
[stA, endA) and [stB, endB) - the conflict semantics the spec defines
for bookings (and which the hasTimeConflict instance method of the
Consultation model file approximates), used to state what the route
conflict query does not check. -/
def intervalConflict (stA endA stB endB : Int) : Prop :=
  stA < endB ∧ stB < endA

/-! Concrete fixtures used by the scenario theorems and witnesses. -/

/-- An active service, priced 100, owned by consultant 2. -/
def exService : Service := ⟨10, 2, 100, true⟩

/-- An active, approved consultant. -/
def exConsultant : Consultant := ⟨2, true, .approved, 0, 0⟩

/-- An active consultant whose application was rejected. -/
def exRejectedConsultant : Consultant := ⟨2, true, .rejected, 0, 0⟩

/-- The client who books. -/
def exActor : Actor := ⟨7, "user"⟩

/-- An admin requester. -/
def exAdmin : Actor := ⟨99, "admin"⟩

/-- A persisted scheduled booking of client 7 with consultant 2 at
time 100000 for 60 minutes. -/
def exBooking : Consultation :=
  ⟨1, 7, 2, 10, 100000, 100000 + 60 * 60000, 60, "10:00", .scheduled, 100,
   [], none, none, none, none, none, none, false, none, 0⟩

/-- The booking of the spec scenario: consultant 2 at the 10:00
instant (36000000 ms), 60 minutes. -/
def bookAt10 : ConsultResult :=
  createConsultation [exService] [exConsultant] [] 0 exActor
    ⟨101, 10, 2, 36000000, 60, "10:00"⟩

/-- The overlapping second booking of the spec scenario: same
consultant at 10:30 (37800000 ms), 60 minutes. -/
def bookAt1030 : ConsultResult :=
  createConsultation [exService] [exConsultant] bookAt10.consultations 0 exActor
    ⟨102, 10, 2, 37800000, 60, "10:30"⟩

/-- The non-overlapping third booking of the spec scenario, at 11:00. -/
def bookAt11 : ConsultResult :=
  createConsultation [exService] [exConsultant] bookAt10.consultations 0 exActor
    ⟨103, 10, 2, 39600000, 60, "11:00"⟩

/-- Three completed, not-yet-rated bookings of client 7 with
consultant 2 in the simpler controller family. -/
def exSBookings : List SConsultation :=
  [⟨1, 7, 2, .completed, none, none, none⟩,
   ⟨2, 7, 2, .completed, none, none, none⟩,
   ⟨3, 7, 2, .completed, none, none, none⟩]

/-- First rating submission through rateConsultation: rating 4. -/
def exRate1 : RateResult :=
  rateConsultation exSBookings [⟨2, none⟩] 1 exActor 20 4 none

/-- Second rating submission through rateConsultation: rating 5. -/
def exRate2 : RateResult :=
  rateConsultation exRate1.consultations exRate1.users 2 exActor 21 5 none

/-- Third rating submission through rateConsultation: rating 5. -/
def exRate3 : RateResult :=
  rateConsultation exRate2.consultations exRate2.users 3 exActor 22 5 none

/-! Shared helper lemmas. -/

/-- find? after a replace-by-id map: if some record was found under
this id, the replacement record (carrying the same id) is found
afterwards. -/
theorem find?_update_of_found {α : Type} (idf : α → Nat) (l : List α)
    (i : Nat) (a b : α)
    (h : l.find? (fun x => idf x == i) = some a) (hb : idf b = i) :
    (l.map (fun x => if idf x == i then b else x)).find?
      (fun x => idf x == i) = some b := by
  induction l with
  | nil => simp [List.find?] at h
  | cons hd tl ih =>
    by_cases hp : (idf hd == i) = true
    · simp only [List.map_cons, hp, if_true]
      exact List.find?_cons_of_pos _ (by simp [hb])
    · rw [@List.find?_cons_of_neg _ (fun x => idf x == i) hd tl hp] at h
      simp only [List.map_cons, if_neg hp]
      rw [@List.find?_cons_of_neg _ (fun x => idf x == i) hd _ hp]
      exact ih h

/-! Claim theorems. -/

/-- Claim C1: the create-booking route evaluated on the spec scenario.
Booking consultant 2 at 10:00 (36000000 ms) for 60 minutes succeeds
with status scheduled; the second 60-minute booking for the same
consultant at 10:30 (37800000 ms) overlaps the first interval yet is
ALSO accepted, because the route conflict query compares scheduledDate
and timeSlot by exact equality instead of interval overlap; the 11:00
booking succeeds as the claim states. This refutes the claimed
rejection of the overlapping booking. -/
theorem c1_route_accepts_overlapping_booking :
    bookAt10.response = ⟨true, 201, "Consultation booked successfully"⟩ ∧
    bookAt10.consultations.map (fun c => (c.consultant, c.status, c.scheduledDate, c.endTime)) =
      [(2, CStatus.scheduled, 36000000, 39600000)] ∧
    ((36000000 : Int) < 41400000 ∧ (37800000 : Int) < 39600000) ∧
    intervalConflict 36000000 39600000 37800000 41400000 ∧
    bookAt1030.response = ⟨true, 201, "Consultation booked successfully"⟩ ∧
    bookAt1030.consultations.length = 2 ∧
    hasCreateConflict bookAt10.consultations 2 37800000 "10:30" = false ∧
    bookAt11.response = ⟨true, 201, "Consultation booked successfully"⟩ := by
  refine ⟨rfl, rfl, by decide, ⟨by decide, by decide⟩, rfl, rfl, rfl, rfl⟩

/-- Claim C3: the reschedule route evaluated at a concrete input.
Rescheduling the booking whose scheduledDate is 100000 to 200000
appends exactly one history entry, but that entry's previousDate field
holds 200000 - the NEW date - because the route overwrites
scheduledDate before building the entry; the consultation's
pre-reschedule date 100000 is lost. Status is set to rescheduled and
the missing reason defaults as claimed. -/
theorem c3_reschedule_records_new_date_as_previous :
    exBooking.scheduledDate = 100000 ∧
    (rescheduleConsultation [exBooking] 1 exActor 50000
        ⟨200000, "11:00", none⟩).response.success = true ∧
    (rescheduleConsultation [exBooking] 1 exActor 50000
        ⟨200000, "11:00", none⟩).consultations.map
        (fun c => (c.rescheduleHistory, c.status)) =
      [([⟨200000, 200000, "No reason provided", 7, 50000⟩], CStatus.rescheduled)] ∧
    (200000 : Int) ≠ exBooking.scheduledDate := by
  refine ⟨rfl, rfl, rfl, by decide⟩

/-- Claim C2 counterexample: with current status scheduled and the
requested target status rescheduled, the pair is not in the transition
table and the update is indeed rejected with the store unchanged, but
the response message is the generic "Validation failed" of the
endpoint validator - it is not the message that names the illegal
from-to pair. -/
theorem c2_validation_message_counterexample :
    (updateConsultationStatus [exBooking] 1 exAdmin 0 "rescheduled" none).response =
      ⟨false, 400, "Validation failed"⟩ ∧
    (updateConsultationStatus [exBooking] 1 exAdmin 0 "rescheduled" none).consultations =
      [exBooking] ∧
    "Validation failed" ≠ transitionErrorMsg CStatus.scheduled CStatus.rescheduled := by
  refine ⟨rfl, rfl, by decide⟩

/-- Claim C4 counterexample: a consultation whose current status is
rescheduled, with a new date strictly in the future and no conflicting
booking, satisfies every condition of the claim, yet the reschedule
route rejects it: the route only permits status scheduled or
confirmed. -/
theorem c4_rescheduled_status_counterexample :
    ({ exBooking with status := CStatus.rescheduled } : Consultation).status =
      CStatus.rescheduled ∧
    (50000 : Int) < 200000 ∧
    hasRescheduleConflict [{ exBooking with status := CStatus.rescheduled }] 1 2
      200000 "11:00" = false ∧
    (rescheduleConsultation [{ exBooking with status := CStatus.rescheduled }] 1
        exActor 50000 ⟨200000, "11:00", none⟩).response =
      ⟨false, 400, "Only scheduled or confirmed consultations can be rescheduled"⟩ ∧
    (rescheduleConsultation [{ exBooking with status := CStatus.rescheduled }] 1
        exActor 50000 ⟨200000, "11:00", none⟩).consultations =
      [{ exBooking with status := CStatus.rescheduled }] := by
  refine ⟨rfl, by decide, rfl, rfl, rfl⟩

/-- Claim C5 counterexample: in the rateConsultation controller family
a completed consultation that already carries a client rating (4) is
rated a second time by its client, and the second attempt is accepted
and overwrites the rating with 5 - there is no once-only guard in that
code path, refuting the claim that a second feedback attempt on the
same booking is rejected. -/
theorem c5_second_rating_accepted_counterexample :
    (⟨1, 7, 2, .completed, some 4, none, some 10⟩ : SConsultation).clientRating =
      some 4 ∧
    (rateConsultation [⟨1, 7, 2, .completed, some 4, none, some 10⟩] [⟨2, none⟩]
        1 exActor 20 5 none).response.success = true ∧
    (rateConsultation [⟨1, 7, 2, .completed, some 4, none, some 10⟩] [⟨2, none⟩]
        1 exActor 20 5 none).consultations.map (fun c => c.clientRating) =
      [some 5] := by
  refine ⟨rfl, rfl, rfl⟩

/-- Claim C8 counterexample: a consultant whose approvalStatus is
rejected but whose isActive flag is true passes the create-booking
route checks - the route never consults approvalStatus - so the
booking succeeds, refuting the claim that creation succeeds only for
an active and approved consultant. -/
theorem c8_unapproved_consultant_counterexample :
    exRejectedConsultant.approvalStatus = Approval.rejected ∧
    exRejectedConsultant.isActive = true ∧
    (createConsultation [exService] [exRejectedConsultant] [] 0 exActor
        ⟨101, 10, 2, 36000000, 60, "10:00"⟩).response =
      ⟨true, 201, "Consultation booked successfully"⟩ ∧
    (createConsultation [exService] [exRejectedConsultant] [] 0 exActor
        ⟨101, 10, 2, 36000000, 60, "10:00"⟩).consultations.map
        (fun c => c.status) = [CStatus.scheduled] := by
  refine ⟨rfl, rfl, rfl, rfl⟩

/-- Claim C9 counterexample: an admin cancels a scheduled consultation
without supplying a cancellation reason; the update is accepted and
status becomes cancelled, but none of cancellationReason, cancelledBy
or cancelledAt is recorded, because the route records them only when a
truthy reason accompanies the request - refuting the claim that actor
and timestamp are recorded on every accepted cancellation. -/
theorem c9_cancel_without_reason_counterexample :
    (updateConsultationStatus [exBooking] 1 exAdmin 12345 "cancelled" none).response.success =
      true ∧
    (updateConsultationStatus [exBooking] 1 exAdmin 12345 "cancelled" none).consultations.map
        (fun c => (c.status, c.cancellationReason, c.cancelledBy, c.cancelledAt)) =
      [(CStatus.cancelled, none, none, none)] := by
  refine ⟨rfl, rfl⟩

/-- Claim C2 (amended): for a stored consultation and an authorized
(admin) requester, a requested target outside the validator set
(confirmed, cancelled, completed, no-show) is rejected by validation
with a generic message and the store unchanged; a validator-admitted
target whose (current, target) pair is not in the transition table is
rejected with the message naming the illegal from-to pair and the
store unchanged; and acceptance happens only when the pair is in the
table. -/
theorem c2_status_update_transition_table (cs : List Consultation)
    (c : Consultation) (a : Actor) (now : Int) (ts : String)
    (reason : Option String) (hfind : findConsultation cs c.id = some c)
    (ha : a.role = "admin") :
    (parseTargetStatus ts = none →
      (updateConsultationStatus cs c.id a now ts reason).response =
        ⟨false, 400, "Validation failed"⟩ ∧
      (updateConsultationStatus cs c.id a now ts reason).consultations = cs) ∧
    (∀ t, parseTargetStatus ts = some t → t ∉ validTransitions c.status →
      (updateConsultationStatus cs c.id a now ts reason).response =
        ⟨false, 400, transitionErrorMsg c.status t⟩ ∧
      (updateConsultationStatus cs c.id a now ts reason).consultations = cs) ∧
    ((updateConsultationStatus cs c.id a now ts reason).response.success = true →
      ∃ t, parseTargetStatus ts = some t ∧ t ∈ validTransitions c.status) := by
  have hauth : ∀ t, statusUpdateAuthorized c a t = true := by
    intro t
    simp [statusUpdateAuthorized, ha]
  refine ⟨?_, ?_, ?_⟩
  · intro hnone
    simp [updateConsultationStatus, hnone]
  · intro t ht hmem
    simp [updateConsultationStatus, ht, hfind, hauth, hmem]
  · intro hsucc
    cases hts : parseTargetStatus ts with
    | none =>
      simp [updateConsultationStatus, hts] at hsucc
    | some t =>
      refine ⟨t, rfl, ?_⟩
      by_contra hmem
      simp [updateConsultationStatus, hts, hfind, hauth, hmem] at hsucc

/-- Witness for claim C2: a no-show request on a scheduled
consultation is rejected with the message naming the pair. -/
theorem c2_status_update_transition_table_witness :
    (updateConsultationStatus [exBooking] exBooking.id exAdmin 0 "no-show" none).response =
      ⟨false, 400, transitionErrorMsg CStatus.scheduled CStatus.noShow⟩ :=
  ((c2_status_update_transition_table [exBooking] exBooking exAdmin 0 "no-show"
      none rfl rfl).2.1 CStatus.noShow rfl (by decide)).1

/-- Claim C4 (amended): for a stored consultation, an authorized
requester (owner or admin) and a nonempty timeSlot, the reschedule is
permitted exactly when the current status is scheduled or confirmed
(not rescheduled), the new date is strictly in the future, and no
other booking of the same consultant occupies the exact same
(scheduledDate, timeSlot) with status scheduled or confirmed; on every
rejection the store is unchanged. -/
theorem c4_reschedule_guards (cs : List Consultation) (c : Consultation)
    (a : Actor) (now : Int) (req : RescheduleReq)
    (hfind : findConsultation cs c.id = some c)
    (hauth : c.user = a.userId ∨ a.role = "admin")
    (hslot : req.timeSlot ≠ "") :
    ((rescheduleConsultation cs c.id a now req).response.success = true ↔
      ((c.status = .scheduled ∨ c.status = .confirmed) ∧
       now < req.scheduledDate ∧
       hasRescheduleConflict cs c.id c.consultant req.scheduledDate
         req.timeSlot = false)) ∧
    ((rescheduleConsultation cs c.id a now req).response.success = false →
      (rescheduleConsultation cs c.id a now req).consultations = cs) := by
  by_cases hst : (c.status = CStatus.scheduled ∨ c.status = CStatus.confirmed)
  · by_cases hdt : req.scheduledDate ≤ now
    · have hnlt : ¬ now < req.scheduledDate := not_lt.mpr hdt
      simp [rescheduleConsultation, hslot, hfind, hauth, hst, hdt, hnlt]
    · by_cases hcf : hasRescheduleConflict cs c.id c.consultant
          req.scheduledDate req.timeSlot = true
      · simp [rescheduleConsultation, hslot, hfind, hauth, hst, hdt, hcf]
      · have hlt : now < req.scheduledDate := not_le.mp hdt
        simp [rescheduleConsultation, hslot, hfind, hauth, hst, hdt, hcf, hlt,
          Bool.not_eq_true] at *
  · simp [rescheduleConsultation, hslot, hfind, hauth, hst]

/-- Witness for claim C4: a scheduled booking rescheduled by its owner
to a future conflict-free slot is accepted. -/
theorem c4_reschedule_guards_witness :
    (rescheduleConsultation [exBooking] exBooking.id exActor 50000
        ⟨200000, "11:00", none⟩).response.success = true :=
  (c4_reschedule_guards [exBooking] exBooking exActor 50000
      ⟨200000, "11:00", none⟩ rfl (Or.inl rfl) (by decide)).1.mpr
    ⟨Or.inl rfl, by decide, rfl⟩

/-- Reduction of addFeedback under a failed rating validation. -/
theorem addFeedback_invalid (cs : List Consultation) (ks : List Consultant)
    (id : Nat) (a : Actor) (now : Int) (rating : Int) (fb : Option String)
    (hv : ¬ (1 ≤ rating ∧ rating ≤ 5)) :
    addFeedback cs ks id a now rating fb =
      ⟨cs, ks, ⟨false, 400, "Validation failed"⟩⟩ := by
  unfold addFeedback
  rw [if_pos hv]

/-- Reduction of addFeedback once the rating is valid and the
consultation is found: the remaining guard chain of the route. -/
theorem addFeedback_found (cs : List Consultation) (ks : List Consultant)
    (a : Actor) (now : Int) (rating : Int) (fb : Option String)
    (c : Consultation) (hv : 1 ≤ rating ∧ rating ≤ 5)
    (hfind : findConsultation cs c.id = some c) :
    addFeedback cs ks c.id a now rating fb =
      (if c.user ≠ a.userId then
        ⟨cs, ks, ⟨false, 403, "Not authorized to provide feedback for this consultation"⟩⟩
      else if c.status ≠ CStatus.completed then
        ⟨cs, ks, ⟨false, 400, "Feedback can only be provided for completed consultations"⟩⟩
      else if c.feedbackProvided then
        ⟨cs, ks, ⟨false, 400, "Feedback already provided for this consultation"⟩⟩
      else
        ⟨replaceConsultation cs
          { c with
            rating := some rating
            feedback := fb
            feedbackProvided := true
            feedbackDate := some now
            updatedAt := now },
         updateConsultantRating
          (replaceConsultation cs
            { c with
              rating := some rating
              feedback := fb
              feedbackProvided := true
              feedbackDate := some now
              updatedAt := now }) ks c.consultant,
         ⟨true, 200, "Feedback submitted successfully"⟩⟩) := by
  unfold addFeedback
  rw [if_neg (not_not_intro hv), hfind]

/-- Claim C5 (amended): on the consultation feedback endpoint, feedback
is accepted exactly when the rating is in 1..5, the requester is the
booking client, the status is completed, and no feedback was provided
before; rejection leaves both stores unchanged; on acceptance the
rating and free-text feedback are stored, feedbackProvided is set,
the consultant aggregate is recomputed from the updated store, and an
immediate second attempt on the same booking is rejected. (The
rateConsultation variant of the simpler controller family enforces
only the client and completed checks and accepts repeated ratings.) -/
theorem c5_feedback_guards (cs : List Consultation) (ks : List Consultant)
    (c : Consultation) (a : Actor) (now : Int) (rating : Int)
    (fb : Option String) (hfind : findConsultation cs c.id = some c) :
    ((addFeedback cs ks c.id a now rating fb).response.success = true ↔
      (1 ≤ rating ∧ rating ≤ 5 ∧ c.user = a.userId ∧
       c.status = CStatus.completed ∧ c.feedbackProvided = false)) ∧
    ((addFeedback cs ks c.id a now rating fb).response.success = false →
      (addFeedback cs ks c.id a now rating fb).consultations = cs ∧
      (addFeedback cs ks c.id a now rating fb).consultants = ks) ∧
    ((addFeedback cs ks c.id a now rating fb).response.success = true →
      ∃ c', findConsultation
          (addFeedback cs ks c.id a now rating fb).consultations c.id = some c' ∧
        c'.rating = some rating ∧ c'.feedback = fb ∧
        c'.feedbackProvided = true ∧
        (addFeedback cs ks c.id a now rating fb).consultants =
          updateConsultantRating
            (addFeedback cs ks c.id a now rating fb).consultations ks
            c.consultant ∧
        (addFeedback (addFeedback cs ks c.id a now rating fb).consultations
            (addFeedback cs ks c.id a now rating fb).consultants
            c.id a now rating fb).response =
          ⟨false, 400, "Feedback already provided for this consultation"⟩) := by
  by_cases hv : (1 ≤ rating ∧ rating ≤ 5)
  · rw [addFeedback_found cs ks a now rating fb c hv hfind]
    by_cases huser : c.user = a.userId
    · rw [if_neg (not_not_intro huser)]
      by_cases hstat : c.status = CStatus.completed
      · rw [if_neg (not_not_intro hstat)]
        by_cases hfp : c.feedbackProvided = true
        · rw [if_pos hfp]
          refine ⟨?_, fun _ => ⟨rfl, rfl⟩, fun h => absurd h (by simp)⟩
          simp [hv, huser, hstat, hfp]
        · have hfp' : c.feedbackProvided = false := by
            cases h : c.feedbackProvided
            · rfl
            · exact absurd h hfp
          rw [if_neg hfp]
          have hrep := find?_update_of_found (fun x : Consultation => x.id) cs c.id c
            { c with
              rating := some rating
              feedback := fb
              feedbackProvided := true
              feedbackDate := some now
              updatedAt := now } hfind rfl
          refine ⟨?_, fun h => absurd h (by simp), fun _ => ?_⟩
          · simp [hv, huser, hstat, hfp']
          · refine ⟨_, hrep, rfl, rfl, rfl, rfl, ?_⟩
            simp only []
            rw [addFeedback_found _ _ a now rating fb
              { c with
                rating := some rating
                feedback := fb
                feedbackProvided := true
                feedbackDate := some now
                updatedAt := now } hv (by exact hrep)]
            simp only []
            rw [if_neg (not_not_intro huser), if_neg (not_not_intro hstat),
              if_pos trivial]
      · rw [if_pos hstat]
        refine ⟨?_, fun _ => ⟨rfl, rfl⟩, fun h => absurd h (by simp)⟩
        simp [hv, huser, hstat]
    · rw [if_pos huser]
      refine ⟨?_, fun _ => ⟨rfl, rfl⟩, fun h => absurd h (by simp)⟩
      simp [hv, huser]
  · rw [addFeedback_invalid cs ks c.id a now rating fb hv]
    refine ⟨?_, fun _ => ⟨rfl, rfl⟩, fun h => absurd h (by simp)⟩
    constructor
    · intro h
      exact absurd h (by simp)
    · intro h
      exact absurd ⟨h.1, h.2.1⟩ hv

/-- Witness for claim C5: feedback with rating 5 by the client on a
completed, not-yet-rated consultation is accepted. -/
theorem c5_feedback_guards_witness :
    (addFeedback [{ exBooking with status := CStatus.completed }] [exConsultant]
        ({ exBooking with status := CStatus.completed } : Consultation).id
        exActor 777 5 none).response.success = true :=
  (c5_feedback_guards [{ exBooking with status := CStatus.completed }]
      [exConsultant] { exBooking with status := CStatus.completed }
      exActor 777 5 none rfl).1.mpr ⟨by decide, by decide, rfl, rfl, rfl⟩

/-- Claim C6 (amended): updateConsultantRating - the aggregation run by
the consultation feedback endpoint - is a full recomputation. Whatever
aggregate values (x, n) the consultant record carried before, after the
update it carries exactly the arithmetic mean of all ratings present
for that consultant rounded to one decimal place, and a count equal to
the number of those ratings. (The rateConsultation aggregation of the
simpler controller family also recomputes in full but stores the raw
unrounded mean and writes no count.) -/
theorem c6_rating_aggregation (cs : List Consultation) (k : Consultant)
    (rest : List Consultant) (rs : List Int) (x : ℚ) (n : Nat)
    (hrs : consultantRatings cs k.id = rs) (hne : rs ≠ []) :
    updateConsultantRating cs ({ k with rating := x, totalRatings := n } :: rest) k.id =
      { k with rating := round1 ((rs.sum : ℚ) / (rs.length : ℚ)), totalRatings := rs.length } ::
        rest.map (fun k2 =>
          if k2.id == k.id then
            { k2 with rating := round1 ((rs.sum : ℚ) / (rs.length : ℚ)), totalRatings := rs.length }
          else k2) := by
  simp only [updateConsultantRating, hrs]
  rw [if_neg (fun h => hne (List.length_eq_zero.mp h))]
  simp only [List.map_cons]
  congr 1
  simp

/-- Claim C6 counterexample: three accepted feedback submissions with
ratings 4, 5 and 5 through the rateConsultation aggregation path leave
the consultant user record holding the RAW unrounded mean 14/3 - not
the one-decimal rounding 4.7 the claim requires - and no count is
written anywhere (the user record written by that path has no count
field at all). -/
theorem c6_unrounded_mean_counterexample :
    exRate1.response.success = true ∧
    exRate2.response.success = true ∧
    exRate3.response.success = true ∧
    exRate3.users =
      [⟨2, some ((([4, 5, 5] : List Int).sum : ℚ) /
        (([4, 5, 5] : List Int).length : ℚ))⟩] ∧
    (([4, 5, 5] : List Int).sum : ℚ) / (([4, 5, 5] : List Int).length : ℚ) =
      (14 : ℚ) / 3 ∧
    (14 : ℚ) / 3 ≠ round1 ((14 : ℚ) / 3) ∧
    round1 ((14 : ℚ) / 3) = 47 / 10 := by
  have h47 : round ((14 : ℚ) / 3 * 10) = 47 := by
    rw [round_eq, show ((14 : ℚ) / 3 * 10 + 1 / 2) = 283 / 6 by norm_num,
      Int.floor_eq_iff]
    constructor
    · norm_num
    · norm_num
  refine ⟨rfl, rfl, rfl, rfl, by norm_num, ?_, ?_⟩
  · rw [round1, h47]
    norm_num
  · rw [round1, h47]
    norm_num

/-- Witness for claim C6: two ratings 4 and 5 aggregate to average
4.5 with count 2, independently of the stale values stored before. -/
theorem c6_rating_aggregation_witness :
    updateConsultantRating
      [{ exBooking with rating := some 4 }, { exBooking with id := 2, rating := some 5 }]
      [{ exConsultant with rating := 0, totalRatings := 0 }] exConsultant.id =
      [{ exConsultant with
          rating := round1 (((([4, 5] : List Int).sum : ℚ)) / ((([4, 5] : List Int).length : ℚ)))
          totalRatings := ([4, 5] : List Int).length }] :=
  c6_rating_aggregation
    [{ exBooking with rating := some 4 }, { exBooking with id := 2, rating := some 5 }]
    exConsultant [] [4, 5] 0 0 (by decide) (by decide)

/-- Claim C7: for a stored published course, a duplicate enroll attempt
(an active-or-completed enrollment of this user in this course already
exists) is rejected with no new record and the enrollment counter
unchanged; otherwise the enrollment succeeds, appends exactly one
record whose amountPaid snapshots the course price, makes the
active-or-completed count of the pair exactly one, and increments the
course counter by exactly one; and the at-most-one invariant for every
(user, course) pair is preserved. -/
theorem c7_enrollment_unique (courses : List Course) (es : List Enrollment)
    (uid cid : Nat) (course : Course)
    (hfind : courses.find? (fun c => c.id == cid) = some course)
    (hpub : course.isPublished ∧ course.statusPublished) :
    (hasActiveEnrollment es uid course.id = true →
      (enrollInCourse courses es uid cid).response.success = false ∧
      (enrollInCourse courses es uid cid).enrollments = es ∧
      (enrollInCourse courses es uid cid).courses = courses) ∧
    (hasActiveEnrollment es uid course.id = false →
      (enrollInCourse courses es uid cid).response.success = true ∧
      (enrollInCourse courses es uid cid).enrollments =
        es ++ [⟨uid, course.id, course.price, EStatus.active⟩] ∧
      (enrollInCourse courses es uid cid).courses.find? (fun c => c.id == cid) =
        some { course with enrollmentCount := course.enrollmentCount + 1 } ∧
      activeEnrollmentCount (enrollInCourse courses es uid cid).enrollments
        uid course.id = 1) ∧
    (∀ u k, activeEnrollmentCount es u k ≤ 1 →
      activeEnrollmentCount (enrollInCourse courses es uid cid).enrollments
        u k ≤ 1) := by
  have hcid := List.find?_some hfind
  have hid : course.id = cid := by simpa using hcid
  subst hid
  simp only [enrollInCourse, hfind]
  rw [if_neg (not_not_intro hpub)]
  by_cases hdup : hasActiveEnrollment es uid course.id = true
  · rw [if_pos hdup]
    refine ⟨fun _ => ⟨rfl, rfl, rfl⟩, fun h => absurd hdup (by simp [h]), ?_⟩
    intro u k hle
    exact hle
  · have hdup' : hasActiveEnrollment es uid course.id = false := by
      cases h : hasActiveEnrollment es uid course.id
      · rfl
      · exact absurd h hdup
    rw [if_neg hdup]
    have h0 : activeEnrollmentCount es uid course.id = 0 := by
      unfold activeEnrollmentCount
      rw [List.length_eq_zero, List.filter_eq_nil_iff]
      exact List.any_eq_false.mp hdup'
    have hcount : ∀ u k, activeEnrollmentCount
        (es ++ [⟨uid, course.id, course.price, EStatus.active⟩]) u k =
        activeEnrollmentCount es u k +
          (if (uid == u && course.id == k) = true then 1 else 0) := by
      intro u k
      unfold activeEnrollmentCount
      rw [List.filter_append, List.length_append]
      congr 1
      by_cases hm : (uid == u && course.id == k) = true
      · rw [if_pos hm]
        have hm' := hm
        simp at hm'
        simp [List.filter_cons, hm'.1, hm'.2]
      · rw [if_neg hm]
        have hm' := hm
        simp at hm'
        simp [List.filter_cons]
        exact hm'
    refine ⟨fun h => absurd h (by simp [hdup']), fun _ => ⟨rfl, rfl, ?_, ?_⟩, ?_⟩
    · exact find?_update_of_found (fun x : Course => x.id) courses course.id
        course _ hfind rfl
    · rw [hcount uid course.id, h0]
      simp
    · intro u k hle
      rw [hcount u k]
      by_cases hm : (uid == u && course.id == k) = true
      · have hu : uid = u := by
          have := hm
          simp at this
          exact this.1
        have hk : course.id = k := by
          have := hm
          simp at this
          exact this.2
        subst hu
        subst hk
        rw [h0, if_pos hm]
      · rw [if_neg hm]
        simpa using hle

/-- Witness for claim C7: enrolling user 7 in published course 5
(price 100) succeeds and creates the enrollment record. -/
theorem c7_enrollment_unique_witness :
    (enrollInCourse [⟨5, 100, true, true, 0⟩] [] 7 5).response.success = true ∧
    (enrollInCourse [⟨5, 100, true, true, 0⟩] [] 7 5).enrollments =
      [⟨7, 5, 100, EStatus.active⟩] :=
  ⟨((c7_enrollment_unique [⟨5, 100, true, true, 0⟩] [] 7 5 ⟨5, 100, true, true, 0⟩
      rfl ⟨rfl, rfl⟩).2.1 rfl).1,
   ((c7_enrollment_unique [⟨5, 100, true, true, 0⟩] [] 7 5 ⟨5, 100, true, true, 0⟩
      rfl ⟨rfl, rfl⟩).2.1 rfl).2.1⟩

/-- Reduction of createConsultation once validation passes and both
the active service and the active consultant are found: the remaining
guard chain of the route. -/
theorem createConsultation_found (services : List Service)
    (ks : List Consultant) (cs : List Consultation) (now : Int)
    (actor : Actor) (req : CreateReq) (sdoc : Service) (cdoc : Consultant)
    (hval : 15 ≤ req.duration ∧ req.duration ≤ 480 ∧ req.timeSlot ≠ "")
    (hs : findActiveService services req.service = some sdoc)
    (hk : findActiveConsultant ks req.consultant = some cdoc) :
    createConsultation services ks cs now actor req =
      (if cdoc.id ≠ sdoc.consultant then
        ⟨cs, ⟨false, 400, "Consultant does not offer this service"⟩⟩
      else if req.scheduledDate ≤ now then
        ⟨cs, ⟨false, 400, "Scheduled date must be in the future"⟩⟩
      else if hasCreateConflict cs req.consultant req.scheduledDate req.timeSlot then
        ⟨cs, ⟨false, 400,
          "Consultant is not available at this time. Please choose another time slot."⟩⟩
      else
        ⟨cs ++ [{ id := req.newId
                  user := actor.userId
                  consultant := req.consultant
                  service := req.service
                  scheduledDate := req.scheduledDate
                  endTime := req.scheduledDate + req.duration * 60000
                  duration := req.duration
                  timeSlot := req.timeSlot
                  status := CStatus.scheduled
                  amount := sdoc.price
                  rescheduleHistory := []
                  cancellationReason := none
                  cancelledBy := none
                  cancelledAt := none
                  completedAt := none
                  rating := none
                  feedback := none
                  feedbackProvided := false
                  feedbackDate := none
                  updatedAt := now }],
         ⟨true, 201, "Consultation booked successfully"⟩⟩) := by
  unfold createConsultation
  rw [if_neg (not_not_intro hval), hs, hk]

/-- Claim C8 (amended): with a passing field validation, create-booking
fails 404 when the service lookup (active services only) or the
consultant lookup (isActive only - approvalStatus is never consulted)
misses; with both found, it succeeds exactly when the consultant owns
the service, the date is strictly in the future and the exact
(scheduledDate, timeSlot) slot has no scheduled-or-confirmed booking of
that consultant; rejections leave the store unchanged, and success
appends one booking with status scheduled whose amount snapshots the
service price. -/
theorem c8_create_booking_guards (services : List Service)
    (ks : List Consultant) (cs : List Consultation) (now : Int)
    (actor : Actor) (req : CreateReq)
    (hval : 15 ≤ req.duration ∧ req.duration ≤ 480 ∧ req.timeSlot ≠ "") :
    (findActiveService services req.service = none →
      (createConsultation services ks cs now actor req).response =
        ⟨false, 404, "Service not found or inactive"⟩ ∧
      (createConsultation services ks cs now actor req).consultations = cs) ∧
    (∀ sdoc, findActiveService services req.service = some sdoc →
      findActiveConsultant ks req.consultant = none →
      (createConsultation services ks cs now actor req).response =
        ⟨false, 404, "Consultant not found or inactive"⟩ ∧
      (createConsultation services ks cs now actor req).consultations = cs) ∧
    (∀ sdoc cdoc, findActiveService services req.service = some sdoc →
      findActiveConsultant ks req.consultant = some cdoc →
      ((createConsultation services ks cs now actor req).response.success = true ↔
        (cdoc.id = sdoc.consultant ∧ now < req.scheduledDate ∧
         hasCreateConflict cs req.consultant req.scheduledDate req.timeSlot = false)) ∧
      ((createConsultation services ks cs now actor req).response.success = false →
        (createConsultation services ks cs now actor req).consultations = cs) ∧
      ((createConsultation services ks cs now actor req).response.success = true →
        ∃ nc, (createConsultation services ks cs now actor req).consultations =
            cs ++ [nc] ∧
          nc.status = CStatus.scheduled ∧ nc.amount = sdoc.price ∧
          nc.consultant = req.consultant ∧
          nc.scheduledDate = req.scheduledDate)) := by
  refine ⟨?_, ?_, ?_⟩
  · intro hs
    unfold createConsultation
    rw [if_neg (not_not_intro hval), hs]
    exact ⟨rfl, rfl⟩
  · intro sdoc hs hk
    unfold createConsultation
    rw [if_neg (not_not_intro hval), hs, hk]
    exact ⟨rfl, rfl⟩
  · intro sdoc cdoc hs hk
    rw [createConsultation_found services ks cs now actor req sdoc cdoc hval hs hk]
    by_cases ho : cdoc.id = sdoc.consultant
    · rw [if_neg (not_not_intro ho)]
      by_cases hdt : req.scheduledDate ≤ now
      · rw [if_pos hdt]
        exact ⟨⟨fun h => absurd h (by simp),
          fun h => absurd hdt (not_le.mpr h.2.1)⟩,
          fun _ => rfl, fun h => absurd h (by simp)⟩
      · by_cases hcf : hasCreateConflict cs req.consultant req.scheduledDate
            req.timeSlot = true
        · rw [if_neg hdt, if_pos hcf]
          exact ⟨⟨fun h => absurd h (by simp),
            fun h => absurd hcf (by simp [h.2.2])⟩,
            fun _ => rfl, fun h => absurd h (by simp)⟩
        · have hcf' : hasCreateConflict cs req.consultant req.scheduledDate
              req.timeSlot = false := by
            cases h : hasCreateConflict cs req.consultant req.scheduledDate req.timeSlot
            · rfl
            · exact absurd h hcf
          rw [if_neg hdt, if_neg hcf]
          exact ⟨⟨fun _ => ⟨ho, not_le.mp hdt, hcf'⟩, fun _ => rfl⟩,
            fun h => absurd h (by simp),
            fun _ => ⟨_, rfl, rfl, rfl, rfl, rfl⟩⟩
    · rw [if_pos ho]
      exact ⟨⟨fun h => absurd h (by simp), fun h => absurd h.1 ho⟩,
        fun _ => rfl, fun h => absurd h (by simp)⟩

/-- Witness for claim C8: booking the active consultant 2 for their
active service 10 at a future conflict-free slot succeeds. -/
theorem c8_create_booking_guards_witness :
    (createConsultation [exService] [exConsultant] [] 0 exActor
        ⟨101, 10, 2, 36000000, 60, "10:00"⟩).response.success = true :=
  ((c8_create_booking_guards [exService] [exConsultant] [] 0 exActor
      ⟨101, 10, 2, 36000000, 60, "10:00"⟩ (by decide)).2.2 exService exConsultant
      rfl rfl).1.mpr ⟨rfl, by decide, rfl⟩

/-- Reduction of the status-update route once the target parses and
the consultation is found. -/
theorem updateStatus_found (cs : List Consultation) (id : Nat) (a : Actor)
    (now : Int) (ts : String) (reason : Option String) (t : CStatus)
    (c : Consultation) (hts : parseTargetStatus ts = some t)
    (hfind : findConsultation cs id = some c) :
    updateConsultationStatus cs id a now ts reason =
      (if ¬ statusUpdateAuthorized c a t then
        ⟨cs, ⟨false, 403, "Not authorized to update consultation status"⟩⟩
      else if ¬ t ∈ validTransitions c.status then
        ⟨cs, ⟨false, 400, transitionErrorMsg c.status t⟩⟩
      else
        ⟨replaceConsultation cs (applyStatusUpdate c a now t reason),
         ⟨true, 200, "Consultation " ++ statusToString t ++ " successfully"⟩⟩) := by
  unfold updateConsultationStatus
  rw [hts, hfind]

/-- The mutation of an accepted status update never changes the id. -/
theorem applyStatusUpdate_id (c : Consultation) (a : Actor) (now : Int)
    (t : CStatus) (reason : Option String) :
    (applyStatusUpdate c a now t reason).id = c.id := by
  simp only [applyStatusUpdate]
  split
  · split
    · rfl
    · rfl
  · split
    · rfl
    · rfl

/-- The mutation of an accepted status update stores the target
status. -/
theorem applyStatusUpdate_status (c : Consultation) (a : Actor) (now : Int)
    (t : CStatus) (reason : Option String) :
    (applyStatusUpdate c a now t reason).status = t := by
  simp only [applyStatusUpdate]
  split
  · split
    · rfl
    · rfl
  · split
    · rfl
    · rfl

/-- A record found under some id is replaced by any record carrying
that id. -/
theorem findConsultation_replace (cs : List Consultation) (i : Nat)
    (c b : Consultation) (h : findConsultation cs i = some c)
    (hb : b.id = i) :
    findConsultation (replaceConsultation cs b) i = some b := by
  unfold findConsultation replaceConsultation at *
  rw [hb]
  exact find?_update_of_found (fun x : Consultation => x.id) cs i c b h hb

/-- The status-update validator only ever parses the four admissible
target statuses. -/
theorem parseTargetStatus_mem (ts : String) (t : CStatus)
    (h : parseTargetStatus ts = some t) :
    t = CStatus.confirmed ∨ t = CStatus.cancelled ∨
    t = CStatus.completed ∨ t = CStatus.noShow := by
  unfold parseTargetStatus at h
  split at h
  · exact Or.inl (Option.some.inj h).symm
  · exact Or.inr (Or.inl (Option.some.inj h).symm)
  · exact Or.inr (Or.inr (Or.inl (Option.some.inj h).symm))
  · exact Or.inr (Or.inr (Or.inr (Option.some.inj h).symm))
  · exact absurd h (by simp)

/-- Claim C9 (amended): for a stored consultation, an admin requester
and a transition-table-legal target, an accepted cancellation that
carries a nonempty reason records the reason, the acting user and the
cancellation timestamp; an accepted cancellation without a reason
records none of the three (the other fields keep their prior values);
an accepted completion records the completion timestamp. -/
theorem c9_cancel_complete_recording (cs : List Consultation)
    (c : Consultation) (a : Actor) (now : Int)
    (hfind : findConsultation cs c.id = some c) (ha : a.role = "admin") :
    (∀ r : String, CStatus.cancelled ∈ validTransitions c.status → r ≠ "" →
      findConsultation
        (updateConsultationStatus cs c.id a now "cancelled" (some r)).consultations
        c.id =
      some { c with
        status := CStatus.cancelled, updatedAt := now,
        cancellationReason := some r, cancelledBy := some a.userId,
        cancelledAt := some now }) ∧
    (CStatus.cancelled ∈ validTransitions c.status →
      findConsultation
        (updateConsultationStatus cs c.id a now "cancelled" none).consultations
        c.id =
      some { c with status := CStatus.cancelled, updatedAt := now }) ∧
    (CStatus.completed ∈ validTransitions c.status →
      findConsultation
        (updateConsultationStatus cs c.id a now "completed" none).consultations
        c.id =
      some { c with
        status := CStatus.completed, updatedAt := now,
        completedAt := some now }) := by
  have hauth : ∀ t, statusUpdateAuthorized c a t = true := by
    intro t
    simp [statusUpdateAuthorized, ha]
  refine ⟨?_, ?_, ?_⟩
  · intro r hmem hr
    rw [updateStatus_found cs c.id a now "cancelled" (some r)
      CStatus.cancelled c rfl hfind]
    rw [if_neg (not_not_intro (hauth CStatus.cancelled)),
      if_neg (not_not_intro hmem)]
    have happ : applyStatusUpdate c a now CStatus.cancelled (some r) =
        { c with
          status := CStatus.cancelled, updatedAt := now,
          cancellationReason := some r, cancelledBy := some a.userId,
          cancelledAt := some now } := by
      simp [applyStatusUpdate, hr]
    rw [happ]
    exact findConsultation_replace cs c.id c _ hfind rfl
  · intro hmem
    rw [updateStatus_found cs c.id a now "cancelled" none
      CStatus.cancelled c rfl hfind]
    rw [if_neg (not_not_intro (hauth CStatus.cancelled)),
      if_neg (not_not_intro hmem)]
    have happ : applyStatusUpdate c a now CStatus.cancelled none =
        { c with status := CStatus.cancelled, updatedAt := now } := by
      simp [applyStatusUpdate]
    rw [happ]
    exact findConsultation_replace cs c.id c _ hfind rfl
  · intro hmem
    rw [updateStatus_found cs c.id a now "completed" none
      CStatus.completed c rfl hfind]
    rw [if_neg (not_not_intro (hauth CStatus.completed)),
      if_neg (not_not_intro hmem)]
    have happ : applyStatusUpdate c a now CStatus.completed none =
        { c with
          status := CStatus.completed, updatedAt := now,
          completedAt := some now } := by
      simp [applyStatusUpdate]
    rw [happ]
    exact findConsultation_replace cs c.id c _ hfind rfl

/-- Witness for claim C9: admin cancels a confirmed consultation with
reason "client request"; the reason, actor and timestamp are stored. -/
theorem c9_cancel_complete_recording_witness :
    findConsultation
      (updateConsultationStatus [{ exBooking with status := CStatus.confirmed }]
        ({ exBooking with status := CStatus.confirmed } : Consultation).id
        exAdmin 555 "cancelled" (some "client request")).consultations
      ({ exBooking with status := CStatus.confirmed } : Consultation).id =
    some { ({ exBooking with status := CStatus.confirmed } : Consultation) with
      status := CStatus.cancelled, updatedAt := 555,
      cancellationReason := some "client request",
      cancelledBy := some exAdmin.userId, cancelledAt := some 555 } :=
  (c9_cancel_complete_recording [{ exBooking with status := CStatus.confirmed }]
      { exBooking with status := CStatus.confirmed } exAdmin 555 rfl rfl).1
    "client request" (by decide) (by decide)

/-- Claim C10: whenever the status-update endpoint accepts a request,
the target parsed from the request body is one of confirmed,
cancelled, completed, no-show - never scheduled and never rescheduled -
and the stored consultation ends up with exactly that status; any
request string outside the four is rejected by the validator with the
store untouched, so the endpoint can never move a consultation back to
scheduled, and rescheduled is reachable only through the reschedule
operation. -/
theorem c10_status_endpoint_targets (cs : List Consultation) (id : Nat)
    (a : Actor) (now : Int) (ts : String) (reason : Option String) :
    ((updateConsultationStatus cs id a now ts reason).response.success = true →
      ∃ t, parseTargetStatus ts = some t ∧
        (t = CStatus.confirmed ∨ t = CStatus.cancelled ∨
         t = CStatus.completed ∨ t = CStatus.noShow) ∧
        t ≠ CStatus.scheduled ∧ t ≠ CStatus.rescheduled ∧
        ∃ c', findConsultation
            (updateConsultationStatus cs id a now ts reason).consultations id =
          some c' ∧ c'.status = t) ∧
    (parseTargetStatus ts = none →
      (updateConsultationStatus cs id a now ts reason).response =
        ⟨false, 400, "Validation failed"⟩ ∧
      (updateConsultationStatus cs id a now ts reason).consultations = cs) := by
  constructor
  · intro hsucc
    cases hts : parseTargetStatus ts with
    | none =>
      simp [updateConsultationStatus, hts] at hsucc
    | some t =>
      have hmem4 := parseTargetStatus_mem ts t hts
      have hns : t ≠ CStatus.scheduled := by
        rcases hmem4 with h | h | h | h <;> simp [h]
      have hnr : t ≠ CStatus.rescheduled := by
        rcases hmem4 with h | h | h | h <;> simp [h]
      cases hc : findConsultation cs id with
      | none =>
        simp [updateConsultationStatus, hts, hc] at hsucc
      | some c =>
        rw [updateStatus_found cs id a now ts reason t c hts hc] at hsucc
        by_cases hauth : statusUpdateAuthorized c a t = true
        · by_cases hmem : t ∈ validTransitions c.status
          · refine ⟨t, rfl, hmem4, hns, hnr, ?_⟩
            rw [updateStatus_found cs id a now ts reason t c hts hc,
              if_neg (not_not_intro hauth), if_neg (not_not_intro hmem)]
            have hcid : c.id = id := by
              simpa using List.find?_some hc
            exact ⟨applyStatusUpdate c a now t reason,
              findConsultation_replace cs id c _ hc
                (by rw [applyStatusUpdate_id]; exact hcid),
              applyStatusUpdate_status c a now t reason⟩
          · rw [if_neg (not_not_intro hauth), if_pos hmem] at hsucc
            exact absurd hsucc (by simp)
        · rw [if_pos hauth] at hsucc
          exact absurd hsucc (by simp)
  · intro hnone
    simp [updateConsultationStatus, hnone]

/-- Witness for claim C10: the consultant confirms a scheduled booking;
the accepted target is confirmed and the stored status becomes
confirmed. -/
theorem c10_status_endpoint_targets_witness :
    ∃ t, parseTargetStatus "confirmed" = some t ∧
      (t = CStatus.confirmed ∨ t = CStatus.cancelled ∨
       t = CStatus.completed ∨ t = CStatus.noShow) ∧
      t ≠ CStatus.scheduled ∧ t ≠ CStatus.rescheduled ∧
      ∃ c', findConsultation
          (updateConsultationStatus [exBooking] 1 ⟨2, "consultant"⟩ 9
            "confirmed" none).consultations 1 =
        some c' ∧ c'.status = t :=
  (c10_status_endpoint_targets [exBooking] 1 ⟨2, "consultant"⟩ 9
    "confirmed" none).1 (by decide)

end StarMedia
